import Mathlib

/-
Verification development for the HelpConnect web application.

The application consists of five page components (DonationForm,
HelpRequestForm, Donations listing, HelpRequests listing, Profile) that talk
to a hosted backend.  Every piece of client-side logic relevant to the
specification is embedded below as a pure Lean function:

  * form validation and insert submission (DonationForm.handleSubmit,
    HelpRequestForm.handleSubmit),
  * the listing fetch flows (Donations.fetchDonations,
    HelpRequests.fetchRequests) with their profile-name merge,
  * the client-side search/category filters (filteredDonations,
    filteredRequests),
  * the profile page data fetch (Profile.fetchUserData) and the two delete
    handlers (handleDeleteDonation, handleDeleteRequest).

Backend responses are passed to the embedded handlers as explicit values:
a `SupaResult` record ({ data, error }) for selects, and an
`Option String` (the backend error code, `none` on success) for inserts
and deletes.  Effects (toast message, navigation target, state updates,
whether a re-fetch is issued) are returned as explicit outcome records.
-/

namespace HelpConnect

/-- JavaScript string-or-null defaulting `x || dflt`: `null`/`undefined`
(`none`) and the empty string are falsy and yield the default. -/
def jsOr : Option String → String → String
  | none, d => d
  | some s, d => if s = "" then d else s

/-- Character-list embedding of `String.prototype.trim`: drop whitespace from
both ends. -/
def strTrim (s : String) : String :=
  ⟨((s.data.dropWhile Char.isWhitespace).reverse.dropWhile Char.isWhitespace).reverse⟩

/-- Character-wise embedding of `String.prototype.toLowerCase`. -/
def strLower (s : String) : String :=
  ⟨s.data.map Char.toLower⟩

/-- Auxiliary for substring search: does the character list start with `pat`. -/
def charsStartWith : List Char → List Char → Bool
  | _, [] => true
  | [], _ :: _ => false
  | c :: cs, p :: ps => c == p && charsStartWith cs ps

/-- Auxiliary for substring search: does the character list contain `pat`
as a contiguous sublist. -/
def charsContain : List Char → List Char → Bool
  | [], pat => pat.isEmpty
  | c :: cs, pat => charsStartWith (c :: cs) pat || charsContain cs pat

/-- Embedding of `String.prototype.includes`: substring containment. -/
def strContains (s pat : String) : Bool :=
  charsContain s.data pat.data

/-- JavaScript `Map.set`: replace the binding for the key if present,
otherwise append it. -/
def mapSet : List (String × String) → String → String → List (String × String)
  | [], k, v => [(k, v)]
  | (k', v') :: rest, k, v =>
    if k' = k then (k, v) :: rest else (k', v') :: mapSet rest k v

/-- JavaScript `Map.get`: the value bound to the key, `none` when absent. -/
def mapGet : List (String × String) → String → Option String
  | [], _ => none
  | (k', v) :: rest, k => if k' = k then some v else mapGet rest k

/-- Auxiliary for `dedupFirst`: drop elements already seen, keeping first
occurrences in order. -/
def dedupFirstAux (seen : List String) : List String → List String
  | [] => []
  | x :: xs =>
    if x ∈ seen then dedupFirstAux seen xs
    else x :: dedupFirstAux (x :: seen) xs

/-- Embedding of `[...new Set(list)]`: deduplicate, keeping the first
occurrence of each element, preserving order. -/
def dedupFirst (l : List String) : List String :=
  dedupFirstAux [] l

/-- A row of the `profiles` table as selected by the listing pages
(`id, full_name`); `full_name` is nullable. -/
structure Profile where
  id : String
  full_name : Option String
deriving DecidableEq

/-- A row of the `help_requests` table as selected by the HelpRequests
listing page (`select("*")`). -/
structure HelpRequest where
  id : String
  title : String
  description : Option String
  category : String
  location : Option String
  urgency : String
  created_at : String
  user_id : String
deriving DecidableEq

/-- A row of the `donations` table as selected by the Donations listing page
(`select("*")`). -/
structure Donation where
  id : String
  title : String
  description : Option String
  category : String
  location : Option String
  created_at : String
  user_id : String
deriving DecidableEq

/-- The result shape of a backend select: `{ data, error }`, where `data`
may be null and `error` carries the backend error code when present. -/
structure SupaResult (α : Type) where
  data : Option (List α)
  error : Option String
deriving DecidableEq

/-- A help-request row paired with the display name merged in by the
HelpRequests listing page. -/
structure NamedHelpRequest where
  req : HelpRequest
  userName : String
deriving DecidableEq

/-- A donation row paired with the display name merged in by the Donations
listing page. -/
structure NamedDonation where
  don : Donation
  userName : String
deriving DecidableEq

/-- The id→display-name map built by the listing pages:
`profileMap.set(p.id, p.full_name || "Anonymous")` over the fetched
profiles in order. -/
def buildProfileMap (profiles : List Profile) : List (String × String) :=
  profiles.foldl (fun m p => mapSet m p.id (jsOr p.full_name "Anonymous")) []

/-- The merge step of `fetchRequests`:
`requestsData.map(r => ({ ...r, userName: profileMap.get(r.user_id) || "Anonymous" }))`. -/
def requestsWithNames (requestsData : List HelpRequest)
    (profileMap : List (String × String)) : List NamedHelpRequest :=
  requestsData.map (fun r => { req := r, userName := jsOr (mapGet profileMap r.user_id) "Anonymous" })

/-- The merge step of `fetchDonations`:
`donationsData.map(d => ({ ...d, userName: profileMap.get(d.user_id) || "Anonymous" }))`. -/
def donationsWithNames (donationsData : List Donation)
    (profileMap : List (String × String)) : List NamedDonation :=
  donationsData.map (fun d => { don := d, userName := jsOr (mapGet profileMap d.user_id) "Anonymous" })

/-- The profiles query issued by `fetchRequests`: the deduplicated user ids
`[...new Set(requestsData.map(r => r.user_id))]`, issued (`some`) only when
`userIds.length > 0`. -/
def requestsProfileQuery (requestsData : List HelpRequest) : Option (List String) :=
  let userIds := dedupFirst (requestsData.map (·.user_id))
  if userIds.length > 0 then some userIds else none

/-- The profiles query issued by `fetchDonations`: the deduplicated user ids
`[...new Set(donationsData.map(d => d.user_id))]`, issued (`some`) only when
`userIds.length > 0`. -/
def donationsProfileQuery (donationsData : List Donation) : Option (List String) :=
  let userIds := dedupFirst (donationsData.map (·.user_id))
  if userIds.length > 0 then some userIds else none

/-- The state of a listing page touched by its fetch flow, plus the toast
message emitted during the flow (the fetch flows never toast). -/
structure HelpRequestsPageState where
  requests : List NamedHelpRequest
  error : Option String
  loading : Bool
  toast : Option String
deriving DecidableEq

/-- The state of the Donations listing page touched by its fetch flow. -/
structure DonationsPageState where
  donations : List NamedDonation
  error : Option String
  loading : Bool
  toast : Option String
deriving DecidableEq

/-- Embedding of `HelpRequests.fetchRequests`, applied to the prior page
state and the two backend responses.  A rows-fetch error throws into the
catch block, which sets the error message; a profiles-fetch error is only
logged, leaving the profile map empty. -/
def fetchRequests (st : HelpRequestsPageState) (rowsRes : SupaResult HelpRequest)
    (profilesRes : SupaResult Profile) : HelpRequestsPageState :=
  match rowsRes.error with
  | some _ =>
    { st with error := some "Failed to load help requests. Please try again.",
              loading := false, toast := none }
  | none =>
    let requestsData := rowsRes.data.getD []
    let userIds := dedupFirst (requestsData.map (·.user_id))
    let profileMap : List (String × String) :=
      if userIds.length > 0 then
        match profilesRes.error with
        | some _ => []
        | none => buildProfileMap (profilesRes.data.getD [])
      else []
    { st with requests := requestsWithNames requestsData profileMap,
              error := none, loading := false, toast := none }

/-- Embedding of `Donations.fetchDonations`, applied to the prior page state
and the two backend responses. -/
def fetchDonations (st : DonationsPageState) (rowsRes : SupaResult Donation)
    (profilesRes : SupaResult Profile) : DonationsPageState :=
  match rowsRes.error with
  | some _ =>
    { st with error := some "Failed to load donations. Please try again.",
              loading := false, toast := none }
  | none =>
    let donationsData := rowsRes.data.getD []
    let userIds := dedupFirst (donationsData.map (·.user_id))
    let profileMap : List (String × String) :=
      if userIds.length > 0 then
        match profilesRes.error with
        | some _ => []
        | none => buildProfileMap (profilesRes.data.getD [])
      else []
    { st with donations := donationsWithNames donationsData profileMap,
              error := none, loading := false, toast := none }

/-- The search predicate of `filteredRequests`:
`title.toLowerCase().includes(q.toLowerCase()) || (description?.toLowerCase().includes(q.toLowerCase()) ?? false)`. -/
def requestMatchesSearch (searchQuery : String) (r : NamedHelpRequest) : Bool :=
  strContains (strLower r.req.title) (strLower searchQuery) ||
    (match r.req.description with
     | some d => strContains (strLower d) (strLower searchQuery)
     | none => false)

/-- The search predicate of `filteredDonations`. -/
def donationMatchesSearch (searchQuery : String) (d : NamedDonation) : Bool :=
  strContains (strLower d.don.title) (strLower searchQuery) ||
    (match d.don.description with
     | some de => strContains (strLower de) (strLower searchQuery)
     | none => false)

/-- Embedding of the `filteredRequests` computed value of the HelpRequests
page: search match intersected with the category match
`selectedCategory === "All" || request.category === selectedCategory`. -/
def filteredRequests (requests : List NamedHelpRequest)
    (searchQuery selectedCategory : String) : List NamedHelpRequest :=
  requests.filter (fun r =>
    requestMatchesSearch searchQuery r &&
      (selectedCategory == "All" || r.req.category == selectedCategory))

/-- Embedding of the `filteredDonations` computed value of the Donations
page. -/
def filteredDonations (donations : List NamedDonation)
    (searchQuery selectedCategory : String) : List NamedDonation :=
  donations.filter (fun d =>
    donationMatchesSearch searchQuery d &&
      (selectedCategory == "All" || d.don.category == selectedCategory))

/-- The form state of `HelpRequestForm` (all fields initialised to ""). -/
structure HelpRequestFormData where
  title : String
  category : String
  description : String
  location : String
  urgency : String
deriving DecidableEq

/-- The form state of `DonationForm`. -/
structure DonationFormData where
  title : String
  category : String
  description : String
  location : String
deriving DecidableEq

/-- The values inserted into `help_requests` by
`HelpRequestForm.handleSubmit`. -/
structure HelpRequestInsert where
  user_id : String
  title : String
  description : String
  category : String
  location : String
  urgency : String
deriving DecidableEq

/-- The values inserted into `donations` by `DonationForm.handleSubmit`. -/
structure DonationInsert where
  user_id : String
  title : String
  description : String
  category : String
  location : String
deriving DecidableEq

/-- Outcome of a submit handler run: the toast shown and, per constructor,
whether an insert was issued (with its payload) and where the page
navigates.  `signInRedirect` is the not-signed-in path (navigates to
"/login"); `validationFail` and `insertError` do not navigate; `success`
navigates to the given route. -/
inductive SubmitResult (ι : Type) where
  | signInRedirect (toastMsg : String)
  | validationFail (toastMsg : String)
  | insertError (payload : ι) (toastMsg : String)
  | success (payload : ι) (toastMsg : String) (route : String)
deriving DecidableEq

/-- The insert issued by a submit handler run, if any. -/
def insertOf {ι : Type} : SubmitResult ι → Option ι
  | .signInRedirect _ => none
  | .validationFail _ => none
  | .insertError p _ => some p
  | .success p _ _ => some p

/-- The navigation performed by a submit handler run, if any. -/
def navTargetOf {ι : Type} : SubmitResult ι → Option String
  | .signInRedirect _ => some "/login"
  | .validationFail _ => none
  | .insertError _ _ => none
  | .success _ _ route => some route

/-- Embedding of `HelpRequestForm.handleSubmit`.  `user` is the session
account id (`none` when signed out); `backendError` is the error code of the
insert response (`none` on success). -/
def helpRequestSubmit (user : Option String) (fd : HelpRequestFormData)
    (backendError : Option String) : SubmitResult HelpRequestInsert :=
  match user with
  | none => .signInRedirect "Please sign in to submit a help request"
  | some uid =>
    if strTrim fd.title = "" then .validationFail "Please enter a title"
    else if fd.category = "" then .validationFail "Please select a category"
    else if strTrim fd.description = "" then .validationFail "Please enter a description"
    else if strTrim fd.location = "" then .validationFail "Please enter a location"
    else if fd.urgency = "" then .validationFail "Please select an urgency level"
    else
      let payload : HelpRequestInsert :=
        { user_id := uid, title := strTrim fd.title,
          description := strTrim fd.description, category := fd.category,
          location := strTrim fd.location, urgency := fd.urgency }
      match backendError with
      | some code =>
        .insertError payload
          (if code = "23503" then "User profile not found. Please try logging out and back in."
           else if code = "42501" then "Permission denied. Please ensure you\x27re logged in."
           else "Failed to submit help request. Please try again.")
      | none => .success payload "Help request submitted successfully!" "/request-success"

/-- Embedding of `DonationForm.handleSubmit`. -/
def donationSubmit (user : Option String) (fd : DonationFormData)
    (backendError : Option String) : SubmitResult DonationInsert :=
  match user with
  | none => .signInRedirect "Please sign in to submit a donation"
  | some uid =>
    if strTrim fd.title = "" then .validationFail "Please enter a title"
    else if fd.category = "" then .validationFail "Please select a category"
    else if strTrim fd.description = "" then .validationFail "Please enter a description"
    else if strTrim fd.location = "" then .validationFail "Please enter a location"
    else
      let payload : DonationInsert :=
        { user_id := uid, title := strTrim fd.title,
          description := strTrim fd.description, category := fd.category,
          location := strTrim fd.location }
      match backendError with
      | some code =>
        .insertError payload
          (if code = "23503" then "User profile not found. Please try logging out and back in."
           else if code = "42501" then "Permission denied. Please ensure you\x27re logged in."
           else "Failed to submit donation. Please try again.")
      | none => .success payload "Donation submitted successfully!" "/donation-success"

/-- A row of `donations` as selected by the Profile page
(`id, title, description, category, created_at`). -/
structure ProfileDonation where
  id : String
  title : String
  description : Option String
  category : String
  created_at : String
deriving DecidableEq

/-- A row of `help_requests` as selected by the Profile page. -/
structure ProfileHelpRequest where
  id : String
  title : String
  description : Option String
  category : String
  urgency : String
  created_at : String
deriving DecidableEq

/-- The Profile page state touched by `fetchUserData`. -/
structure ProfilePageState where
  donations : List ProfileDonation
  requests : List ProfileHelpRequest
  error : Option String
  loading : Bool
deriving DecidableEq

/-- Embedding of `Profile.fetchUserData`: the two fetches are started
together with `Promise.all` and their results consumed jointly — an error in
either one throws into the catch block, which sets the error message and
leaves both lists untouched; both lists are set only when neither response
carries an error. -/
def fetchUserData (st : ProfilePageState) (donationsRes : SupaResult ProfileDonation)
    (requestsRes : SupaResult ProfileHelpRequest) : ProfilePageState :=
  if donationsRes.error.isSome then
    { st with error := some "Failed to load your data. Please try refreshing the page.",
              loading := false }
  else if requestsRes.error.isSome then
    { st with error := some "Failed to load your data. Please try refreshing the page.",
              loading := false }
  else
    { st with donations := donationsRes.data.getD [],
              requests := requestsRes.data.getD [],
              error := none, loading := false }

/-- Outcome of a delete handler run: the new list state, the toast shown,
whether it was an error toast, and whether a re-fetch of the list was
issued. -/
structure DeleteOutcome (α : Type) where
  items : List α
  toastMsg : String
  toastIsError : Bool
  refetch : Bool
deriving DecidableEq

/-- Embedding of `Profile.handleDeleteDonation`: on success filter the
deleted id out of local state (no re-fetch); on failure classify the error
code and leave the list alone. -/
def handleDeleteDonation (donations : List ProfileDonation) (id : String)
    (backendError : Option String) : DeleteOutcome ProfileDonation :=
  match backendError with
  | some code =>
    { items := donations,
      toastMsg := if code = "42501" then "You don\x27t have permission to delete this donation"
                  else "Failed to delete donation",
      toastIsError := true, refetch := false }
  | none =>
    { items := donations.filter (fun d => d.id != id),
      toastMsg := "Donation deleted successfully",
      toastIsError := false, refetch := false }

/-- Embedding of `Profile.handleDeleteRequest`. -/
def handleDeleteRequest (requests : List ProfileHelpRequest) (id : String)
    (backendError : Option String) : DeleteOutcome ProfileHelpRequest :=
  match backendError with
  | some code =>
    { items := requests,
      toastMsg := if code = "42501" then "You don\x27t have permission to delete this request"
                  else "Failed to delete request",
      toastIsError := true, refetch := false }
  | none =>
    { items := requests.filter (fun r => r.id != id),
      toastMsg := "Request deleted successfully",
      toastIsError := false, refetch := false }

lemma charsContain_nil (l : List Char) : charsContain l [] = true := by
  cases l with
  | nil => rfl
  | cons c cs => simp [charsContain, charsStartWith]

lemma strContains_empty_pat (s : String) : strContains s "" = true :=
  charsContain_nil s.data

lemma strLower_empty : strLower "" = "" := rfl

lemma requestMatchesSearch_iff (q : String) (r : NamedHelpRequest) :
    requestMatchesSearch q r = true ↔
      (strContains (strLower r.req.title) (strLower q) = true ∨
        ∃ d, r.req.description = some d ∧ strContains (strLower d) (strLower q) = true) := by
  cases hd : r.req.description with
  | none => simp [requestMatchesSearch, hd]
  | some d => simp [requestMatchesSearch, hd]

lemma donationMatchesSearch_iff (q : String) (d : NamedDonation) :
    donationMatchesSearch q d = true ↔
      (strContains (strLower d.don.title) (strLower q) = true ∨
        ∃ de, d.don.description = some de ∧ strContains (strLower de) (strLower q) = true) := by
  cases hd : d.don.description with
  | none => simp [donationMatchesSearch, hd]
  | some de => simp [donationMatchesSearch, hd]

/-- C3: an item is in the filtered list of a listing page iff it is in the
fetched list, the lower-cased query is a substring of its lower-cased title
or (when the description is present) of its lower-cased description, and the
selected category is "All" or equals the item's category. -/
theorem c3_filter_membership (q c : String) :
    (∀ (rs : List NamedHelpRequest) (r : NamedHelpRequest),
      r ∈ filteredRequests rs q c ↔
        r ∈ rs ∧
        (strContains (strLower r.req.title) (strLower q) = true ∨
          ∃ d, r.req.description = some d ∧ strContains (strLower d) (strLower q) = true) ∧
        (c = "All" ∨ r.req.category = c)) ∧
    (∀ (ds : List NamedDonation) (d : NamedDonation),
      d ∈ filteredDonations ds q c ↔
        d ∈ ds ∧
        (strContains (strLower d.don.title) (strLower q) = true ∨
          ∃ de, d.don.description = some de ∧ strContains (strLower de) (strLower q) = true) ∧
        (c = "All" ∨ d.don.category = c)) := by
  constructor
  · intro rs r
    rw [filteredRequests, List.mem_filter]
    simp only [Bool.and_eq_true, Bool.or_eq_true, beq_iff_eq, requestMatchesSearch_iff,
      and_assoc]
  · intro ds d
    rw [filteredDonations, List.mem_filter]
    simp only [Bool.and_eq_true, Bool.or_eq_true, beq_iff_eq, donationMatchesSearch_iff,
      and_assoc]

/-- C10: with the empty query and category "All" the client-side filter is
the identity, and for every query and category the filtered list is a
subsequence of the fetched list. -/
theorem c10_filter_identity_and_sublist (rs : List NamedHelpRequest)
    (ds : List NamedDonation) (q c : String) :
    filteredRequests rs "" "All" = rs ∧ filteredDonations ds "" "All" = ds ∧
    (filteredRequests rs q c).Sublist rs ∧ (filteredDonations ds q c).Sublist ds := by
  refine ⟨?_, ?_, List.filter_sublist rs, List.filter_sublist ds⟩
  · exact List.filter_eq_self.mpr (fun r _ => by
      simp [requestMatchesSearch, strLower_empty, strContains_empty_pat])
  · exact List.filter_eq_self.mpr (fun d _ => by
      simp [donationMatchesSearch, strLower_empty, strContains_empty_pat])

/-- The profile entry a JavaScript Map lookup finds for a user id: the last
profile in the list with that id (later `Map.set` calls overwrite earlier
ones). -/
def lastProfileFor : List Profile → String → Option Profile
  | [], _ => none
  | p :: ps, uid =>
    match lastProfileFor ps uid with
    | some q => some q
    | none => if p.id = uid then some p else none

/-- The display-name assignment as the specification words it: the name
found in the id→full_name lookup built from the profiles, and "Anonymous"
exactly when the user id has no entry in the profile list or the profile's
full_name is absent. -/
def claimDisplayName (profiles : List Profile) (uid : String) : String :=
  match lastProfileFor profiles uid with
  | some p =>
    match p.full_name with
    | some n => n
    | none => "Anonymous"
  | none => "Anonymous"

/-- The amended display-name assignment: "Anonymous" also when the
profile's full_name is present but equal to the empty string (the code
tests `full_name || "Anonymous"`, and the empty string is falsy). -/
def claimDisplayNameAmended (profiles : List Profile) (uid : String) : String :=
  match lastProfileFor profiles uid with
  | some p =>
    match p.full_name with
    | some n => if n = "" then "Anonymous" else n
    | none => "Anonymous"
  | none => "Anonymous"

lemma mapGet_mapSet (m : List (String × String)) (k v k' : String) :
    mapGet (mapSet m k v) k' = if k' = k then some v else mapGet m k' := by
  induction m with
  | nil =>
    by_cases h : k' = k
    · simp [mapSet, mapGet, h]
    · simp [mapSet, mapGet, h, Ne.symm h]
  | cons kv rest ih =>
    obtain ⟨k₀, v₀⟩ := kv
    by_cases hk : k₀ = k
    · subst hk
      by_cases h : k' = k₀
      · simp [mapSet, mapGet, h]
      · simp [mapSet, mapGet, h, Ne.symm h]
    · by_cases h : k' = k₀
      · subst h
        simp [mapSet, mapGet, hk, Ne.symm hk]
      · simp [mapSet, mapGet, hk, Ne.symm h, ih]

lemma mapGet_foldl_profiles (ps : List Profile) (m : List (String × String)) (uid : String) :
    mapGet (ps.foldl (fun m p => mapSet m p.id (jsOr p.full_name "Anonymous")) m) uid =
      match lastProfileFor ps uid with
      | some p => some (jsOr p.full_name "Anonymous")
      | none => mapGet m uid := by
  induction ps generalizing m with
  | nil => simp [lastProfileFor]
  | cons p ps ih =>
    rw [List.foldl_cons, ih]
    cases hps : lastProfileFor ps uid with
    | some q => simp [lastProfileFor, hps]
    | none =>
      simp only [lastProfileFor, hps, mapGet_mapSet]
      by_cases hid : p.id = uid
      · simp [hid]
      · simp [hid, Ne.symm hid]

lemma mapGet_buildProfileMap (ps : List Profile) (uid : String) :
    mapGet (buildProfileMap ps) uid =
      (lastProfileFor ps uid).map (fun p => jsOr p.full_name "Anonymous") := by
  rw [buildProfileMap, mapGet_foldl_profiles]
  cases lastProfileFor ps uid <;> simp [mapGet]

lemma merged_userName (ps : List Profile) (uid : String) :
    jsOr (mapGet (buildProfileMap ps) uid) "Anonymous" = claimDisplayNameAmended ps uid := by
  rw [mapGet_buildProfileMap, claimDisplayNameAmended]
  cases hps : lastProfileFor ps uid with
  | none => simp [jsOr]
  | some p =>
    cases hn : p.full_name with
    | none => simp [jsOr, hn]
    | some n =>
      by_cases h0 : n = "" <;> simp [jsOr, hn, h0]

/-- C2 counterexample: a profile whose full_name is present but empty.  The
lookup the claim describes assigns this row the empty name, while the code
assigns "Anonymous" (JavaScript `||` treats the empty string as falsy). -/
theorem c2_counterexample :
    (requestsWithNames
        [⟨"r1", "Books", none, "Education", none, "low", "2024-01-01", "u1"⟩]
        (buildProfileMap [⟨"u1", some ""⟩])).map NamedHelpRequest.userName =
      ["Anonymous"] ∧
    claimDisplayName [⟨"u1", some ""⟩] "u1" = "" ∧
    ("Anonymous" : String) ≠ "" := by
  refine ⟨by decide, by decide, by decide⟩

/-- C2 (amended): the merge of both listing pages assigns each row the
display name of the last matching profile, falling back to "Anonymous" when
the user id has no profile, or the profile's full_name is absent or empty. -/
theorem c2_merge_display_names (rows : List HelpRequest) (drows : List Donation)
    (profiles : List Profile) :
    (requestsWithNames rows (buildProfileMap profiles)).map NamedHelpRequest.userName =
      rows.map (fun r => claimDisplayNameAmended profiles r.user_id) ∧
    (donationsWithNames drows (buildProfileMap profiles)).map NamedDonation.userName =
      drows.map (fun d => claimDisplayNameAmended profiles d.user_id) := by
  constructor
  · rw [requestsWithNames, List.map_map]
    exact List.map_congr_left (fun r _ => merged_userName profiles r.user_id)
  · rw [donationsWithNames, List.map_map]
    exact List.map_congr_left (fun d _ => merged_userName profiles d.user_id)

/-- C5: a successful delete removes from the local list exactly the items
whose id equals the deleted id (the result is a subsequence of the prior
list, an item survives iff its id differs, and surviving items keep their
multiplicity), and no re-fetch is issued. -/
theorem c5_delete_success_removes_exactly (ds : List ProfileDonation)
    (rs : List ProfileHelpRequest) (id : String) :
    ((handleDeleteDonation ds id none).items.Sublist ds ∧
     (∀ d : ProfileDonation, d ∈ (handleDeleteDonation ds id none).items ↔ d ∈ ds ∧ d.id ≠ id) ∧
     (∀ d : ProfileDonation, d.id ≠ id →
        (handleDeleteDonation ds id none).items.count d = ds.count d) ∧
     (handleDeleteDonation ds id none).refetch = false) ∧
    ((handleDeleteRequest rs id none).items.Sublist rs ∧
     (∀ r : ProfileHelpRequest, r ∈ (handleDeleteRequest rs id none).items ↔ r ∈ rs ∧ r.id ≠ id) ∧
     (∀ r : ProfileHelpRequest, r.id ≠ id →
        (handleDeleteRequest rs id none).items.count r = rs.count r) ∧
     (handleDeleteRequest rs id none).refetch = false) := by
  refine ⟨⟨List.filter_sublist ds, ?_, ?_, rfl⟩, List.filter_sublist rs, ?_, ?_, rfl⟩
  · intro d
    simp [handleDeleteDonation, List.mem_filter]
  · intro d hd
    exact List.count_filter (by simpa using hd)
  · intro r
    simp [handleDeleteRequest, List.mem_filter]
  · intro r hr
    exact List.count_filter (by simpa using hr)

/-- C5 witness at concrete lists: deleting "d1" keeps the other item with
its multiplicity and issues no re-fetch, on both tabs. -/
theorem c5_delete_success_removes_exactly_witness :
    (handleDeleteDonation [⟨"d1", "A", none, "Food", "2024"⟩, ⟨"d2", "B", none, "Food", "2024"⟩]
        "d1" none).refetch = false ∧
    (⟨"d2", "B", none, "Food", "2024"⟩ : ProfileDonation) ∈
      (handleDeleteDonation [⟨"d1", "A", none, "Food", "2024"⟩, ⟨"d2", "B", none, "Food", "2024"⟩]
        "d1" none).items ∧
    (handleDeleteDonation [⟨"d1", "A", none, "Food", "2024"⟩, ⟨"d2", "B", none, "Food", "2024"⟩]
        "d1" none).items.count ⟨"d2", "B", none, "Food", "2024"⟩ =
      ([⟨"d1", "A", none, "Food", "2024"⟩,
        ⟨"d2", "B", none, "Food", "2024"⟩] : List ProfileDonation).count
        ⟨"d2", "B", none, "Food", "2024"⟩ ∧
    ¬(⟨"r1", "C", none, "Food", "low", "2024"⟩ : ProfileHelpRequest) ∈
      (handleDeleteRequest [⟨"r1", "C", none, "Food", "low", "2024"⟩] "r1" none).items := by
  have h := c5_delete_success_removes_exactly
    [⟨"d1", "A", none, "Food", "2024"⟩, ⟨"d2", "B", none, "Food", "2024"⟩]
    [⟨"r1", "C", none, "Food", "low", "2024"⟩] "r1"
  have h' := c5_delete_success_removes_exactly
    [⟨"d1", "A", none, "Food", "2024"⟩, ⟨"d2", "B", none, "Food", "2024"⟩]
    [⟨"r1", "C", none, "Food", "low", "2024"⟩] "d1"
  refine ⟨h'.1.2.2.2, ?_, ?_, ?_⟩
  · exact (h'.1.2.1 ⟨"d2", "B", none, "Food", "2024"⟩).mpr (by decide)
  · exact h'.1.2.2.1 ⟨"d2", "B", none, "Food", "2024"⟩ (by decide)
  · intro hmem
    exact absurd ((h.2.2.1 ⟨"r1", "C", none, "Food", "low", "2024"⟩).mp hmem).2 (by decide)

/-- C7: on a failed delete the toast is the permission-denied message exactly
when the backend code is "42501" and the generic failure message otherwise,
and the local list is left unchanged. -/
theorem c7_delete_failure_classification (ds : List ProfileDonation)
    (rs : List ProfileHelpRequest) (id code : String) :
    ((handleDeleteDonation ds id (some code)).items = ds ∧
     (handleDeleteDonation ds id (some code)).toastMsg =
       (if code = "42501" then "You don\x27t have permission to delete this donation"
        else "Failed to delete donation") ∧
     (handleDeleteDonation ds id (some code)).toastIsError = true) ∧
    ((handleDeleteRequest rs id (some code)).items = rs ∧
     (handleDeleteRequest rs id (some code)).toastMsg =
       (if code = "42501" then "You don\x27t have permission to delete this request"
        else "Failed to delete request") ∧
     (handleDeleteRequest rs id (some code)).toastIsError = true) :=
  ⟨⟨rfl, rfl, rfl⟩, rfl, rfl, rfl⟩

/-- C6: the profile page consumes the two fetch results all-or-nothing — an
error in either response leaves both lists untouched and sets the error
state, and both lists are set exactly when neither response has an error. -/
theorem c6_profile_fetch_all_or_nothing (st : ProfilePageState)
    (donationsRes : SupaResult ProfileDonation) (requestsRes : SupaResult ProfileHelpRequest) :
    ((donationsRes.error.isSome = true ∨ requestsRes.error.isSome = true) →
      (fetchUserData st donationsRes requestsRes).donations = st.donations ∧
      (fetchUserData st donationsRes requestsRes).requests = st.requests ∧
      (fetchUserData st donationsRes requestsRes).error =
        some "Failed to load your data. Please try refreshing the page.") ∧
    (donationsRes.error = none → requestsRes.error = none →
      (fetchUserData st donationsRes requestsRes).donations = donationsRes.data.getD [] ∧
      (fetchUserData st donationsRes requestsRes).requests = requestsRes.data.getD [] ∧
      (fetchUserData st donationsRes requestsRes).error = none) := by
  constructor
  · intro h
    cases hd : donationsRes.error with
    | some e => simp [fetchUserData, hd]
    | none =>
      cases hr : requestsRes.error with
      | some e => simp [fetchUserData, hd, hr]
      | none => simp [hd, hr] at h
  · intro hd hr
    simp [fetchUserData, hd, hr]

/-- C6 witness at concrete inputs: a failing donations fetch leaves both
lists alone, and a pair of clean fetches installs both. -/
theorem c6_profile_fetch_all_or_nothing_witness :
    (fetchUserData ⟨[], [], none, true⟩ ⟨none, some "500"⟩ ⟨some [], none⟩).donations = [] ∧
    (fetchUserData ⟨[], [], none, true⟩ ⟨none, some "500"⟩ ⟨some [], none⟩).requests = [] ∧
    (fetchUserData ⟨[], [], none, true⟩ ⟨none, some "500"⟩ ⟨some [], none⟩).error =
      some "Failed to load your data. Please try refreshing the page." ∧
    (fetchUserData ⟨[], [], none, true⟩
        ⟨some [⟨"d1", "T", none, "Food", "2024"⟩], none⟩ ⟨some [], none⟩).donations =
      [⟨"d1", "T", none, "Food", "2024"⟩] := by
  refine ⟨?_, ?_, ?_, ?_⟩
  · exact ((c6_profile_fetch_all_or_nothing ⟨[], [], none, true⟩ ⟨none, some "500"⟩
      ⟨some [], none⟩).1 (Or.inl (by decide))).1
  · exact ((c6_profile_fetch_all_or_nothing ⟨[], [], none, true⟩ ⟨none, some "500"⟩
      ⟨some [], none⟩).1 (Or.inl (by decide))).2.1
  · exact ((c6_profile_fetch_all_or_nothing ⟨[], [], none, true⟩ ⟨none, some "500"⟩
      ⟨some [], none⟩).1 (Or.inl (by decide))).2.2
  · exact ((c6_profile_fetch_all_or_nothing ⟨[], [], none, true⟩
      ⟨some [⟨"d1", "T", none, "Food", "2024"⟩], none⟩ ⟨some [], none⟩).2 rfl rfl).1

lemma mem_dedupFirstAux (l : List String) :
    ∀ (seen : List String) (a : String),
      a ∈ dedupFirstAux seen l ↔ a ∈ l ∧ a ∉ seen := by
  induction l with
  | nil => intro seen a; simp [dedupFirstAux]
  | cons x xs ih =>
    intro seen a
    by_cases hx : x ∈ seen
    · rw [dedupFirstAux, if_pos hx, ih]
      simp only [List.mem_cons]
      constructor
      · exact fun h => ⟨Or.inr h.1, h.2⟩
      · rintro ⟨h1 | h1, h2⟩
        · exact absurd (h1 ▸ hx) h2
        · exact ⟨h1, h2⟩
    · rw [dedupFirstAux, if_neg hx]
      simp only [List.mem_cons, ih, List.mem_cons]
      constructor
      · rintro (h | ⟨h1, h2⟩)
        · exact ⟨Or.inl h, h ▸ hx⟩
        · exact ⟨Or.inr h1, fun hs => h2 (Or.inr hs)⟩
      · rintro ⟨h1 | h1, h2⟩
        · exact Or.inl h1
        · by_cases hax : a = x
          · exact Or.inl hax
          · exact Or.inr ⟨h1, fun hs => hs.elim hax h2⟩

lemma nodup_dedupFirstAux (l : List String) :
    ∀ seen : List String, (dedupFirstAux seen l).Nodup := by
  induction l with
  | nil => intro seen; simp [dedupFirstAux]
  | cons x xs ih =>
    intro seen
    by_cases hx : x ∈ seen
    · rw [dedupFirstAux, if_pos hx]; exact ih seen
    · rw [dedupFirstAux, if_neg hx]
      refine List.nodup_cons.mpr ⟨?_, ih (x :: seen)⟩
      intro hmem
      exact ((mem_dedupFirstAux xs (x :: seen) x).mp hmem).2 (List.mem_cons_self x seen)

lemma mem_dedupFirst (l : List String) (a : String) : a ∈ dedupFirst l ↔ a ∈ l := by
  rw [dedupFirst, mem_dedupFirstAux]
  simp

lemma nodup_dedupFirst (l : List String) : (dedupFirst l).Nodup :=
  nodup_dedupFirstAux l []

/-- C8: each listing page issues a profiles query exactly when the fetched
row list is non-empty, and the queried id list is duplicate-free and covers
exactly the user ids occurring in the fetched rows. -/
theorem c8_profile_query_distinct_ids (rows : List HelpRequest) (drows : List Donation) :
    ((requestsProfileQuery rows = none ↔ rows = []) ∧
     ∀ ids, requestsProfileQuery rows = some ids →
       ids.Nodup ∧ ∀ x, x ∈ ids ↔ x ∈ rows.map HelpRequest.user_id) ∧
    ((donationsProfileQuery drows = none ↔ drows = []) ∧
     ∀ ids, donationsProfileQuery drows = some ids →
       ids.Nodup ∧ ∀ x, x ∈ ids ↔ x ∈ drows.map Donation.user_id) := by
  have key : ∀ (us : List String),
      ((if (dedupFirst us).length > 0 then some (dedupFirst us) else none) = none ↔ us = []) ∧
      ∀ ids, (if (dedupFirst us).length > 0 then some (dedupFirst us) else none) = some ids →
        ids.Nodup ∧ ∀ x, x ∈ ids ↔ x ∈ us := by
    intro us
    constructor
    · cases us with
      | nil => simp [dedupFirst, dedupFirstAux]
      | cons u us =>
        have hmem : u ∈ dedupFirst (u :: us) := (mem_dedupFirst _ _).mpr (List.mem_cons_self u us)
        have hlen : 0 < (dedupFirst (u :: us)).length := List.length_pos.mpr (by
          intro hnil; rw [hnil] at hmem; exact (List.not_mem_nil u) hmem)
        simp [hlen]
    · intro ids hids
      by_cases hlen : (dedupFirst us).length > 0
      · rw [if_pos hlen] at hids
        cases hids
        exact ⟨nodup_dedupFirst us, fun x => mem_dedupFirst us x⟩
      · rw [if_neg hlen] at hids
        cases hids
  refine ⟨⟨?_, fun ids h => (key (rows.map HelpRequest.user_id)).2 ids h⟩,
          ⟨?_, fun ids h => (key (drows.map Donation.user_id)).2 ids h⟩⟩
  · have h := (key (rows.map HelpRequest.user_id)).1
    rw [List.map_eq_nil_iff] at h
    exact h
  · have h := (key (drows.map Donation.user_id)).1
    rw [List.map_eq_nil_iff] at h
    exact h

/-- C8 witness at concrete inputs: two help-request rows sharing a user id
yield a single-id query, and empty row lists yield no query. -/
theorem c8_profile_query_distinct_ids_witness :
    requestsProfileQuery [] = none ∧ donationsProfileQuery [] = none ∧
    ((requestsProfileQuery
        [⟨"r1", "A", none, "Food", none, "low", "2024", "u1"⟩,
         ⟨"r2", "B", none, "Food", none, "low", "2024", "u1"⟩]).getD []).Nodup ∧
    ("u1" ∈ (requestsProfileQuery
        [⟨"r1", "A", none, "Food", none, "low", "2024", "u1"⟩,
         ⟨"r2", "B", none, "Food", none, "low", "2024", "u1"⟩]).getD ["u1"]) := by
  have h1 := (c8_profile_query_distinct_ids [] []).1.1.mpr rfl
  have h2 := (c8_profile_query_distinct_ids [] []).2.1.mpr rfl
  have h3 := (c8_profile_query_distinct_ids
      [⟨"r1", "A", none, "Food", none, "low", "2024", "u1"⟩,
       ⟨"r2", "B", none, "Food", none, "low", "2024", "u1"⟩] []).1.2 ["u1"] (by decide)
  refine ⟨h1, h2, ?_, ?_⟩
  · have : requestsProfileQuery
        [⟨"r1", "A", none, "Food", none, "low", "2024", "u1"⟩,
         ⟨"r2", "B", none, "Food", none, "low", "2024", "u1"⟩] = some ["u1"] := by decide
    rw [this]
    exact h3.1
  · have : requestsProfileQuery
        [⟨"r1", "A", none, "Food", none, "low", "2024", "u1"⟩,
         ⟨"r2", "B", none, "Food", none, "low", "2024", "u1"⟩] = some ["u1"] := by decide
    rw [this]
    exact (h3.2 "u1").mpr (by decide)

/-- C9: a profiles-fetch failure alone does not produce the error state and
emits no toast — the rows are stored with every display name "Anonymous";
only a rows-fetch failure sets the error state. -/
theorem c9_profiles_failure_tolerated (st : HelpRequestsPageState)
    (dst : DonationsPageState) (rowsData : Option (List HelpRequest))
    (drowsData : Option (List Donation)) (pData : Option (List Profile)) (e : String)
    (pRes : SupaResult Profile) :
    ((fetchRequests st ⟨rowsData, none⟩ ⟨pData, some e⟩).error = none ∧
     (fetchRequests st ⟨rowsData, none⟩ ⟨pData, some e⟩).toast = none ∧
     (fetchRequests st ⟨rowsData, none⟩ ⟨pData, some e⟩).requests =
       (rowsData.getD []).map (fun r => ⟨r, "Anonymous"⟩) ∧
     (fetchRequests st ⟨rowsData, some e⟩ pRes).error =
       some "Failed to load help requests. Please try again." ∧
     (fetchRequests st ⟨rowsData, some e⟩ pRes).requests = st.requests) ∧
    ((fetchDonations dst ⟨drowsData, none⟩ ⟨pData, some e⟩).error = none ∧
     (fetchDonations dst ⟨drowsData, none⟩ ⟨pData, some e⟩).toast = none ∧
     (fetchDonations dst ⟨drowsData, none⟩ ⟨pData, some e⟩).donations =
       (drowsData.getD []).map (fun d => ⟨d, "Anonymous"⟩) ∧
     (fetchDonations dst ⟨drowsData, some e⟩ pRes).error =
       some "Failed to load donations. Please try again." ∧
     (fetchDonations dst ⟨drowsData, some e⟩ pRes).donations = dst.donations) := by
  refine ⟨⟨rfl, rfl, ?_, rfl, rfl⟩, rfl, rfl, ?_, rfl, rfl⟩
  · show requestsWithNames (rowsData.getD [])
      (if (dedupFirst ((rowsData.getD []).map (·.user_id))).length > 0 then []
       else []) = _
    rw [ite_self]
    simp [requestsWithNames, mapGet, jsOr]
  · show donationsWithNames (drowsData.getD [])
      (if (dedupFirst ((drowsData.getD []).map (·.user_id))).length > 0 then []
       else []) = _
    rw [ite_self]
    simp [donationsWithNames, mapGet, jsOr]

lemma helpRequestSubmit_valid (uid : String) (fd : HelpRequestFormData)
    (be : Option String) (h1 : strTrim fd.title ≠ "") (h2 : fd.category ≠ "")
    (h3 : strTrim fd.description ≠ "") (h4 : strTrim fd.location ≠ "")
    (h5 : fd.urgency ≠ "") :
    helpRequestSubmit (some uid) fd be =
      match be with
      | some code =>
        .insertError
          ⟨uid, strTrim fd.title, strTrim fd.description, fd.category,
            strTrim fd.location, fd.urgency⟩
          (if code = "23503" then "User profile not found. Please try logging out and back in."
           else if code = "42501" then "Permission denied. Please ensure you\x27re logged in."
           else "Failed to submit help request. Please try again.")
      | none =>
        .success
          ⟨uid, strTrim fd.title, strTrim fd.description, fd.category,
            strTrim fd.location, fd.urgency⟩
          "Help request submitted successfully!" "/request-success" := by
  rw [helpRequestSubmit, if_neg h1, if_neg h2, if_neg h3, if_neg h4, if_neg h5]

lemma donationSubmit_valid (uid : String) (fd : DonationFormData)
    (be : Option String) (h1 : strTrim fd.title ≠ "") (h2 : fd.category ≠ "")
    (h3 : strTrim fd.description ≠ "") (h4 : strTrim fd.location ≠ "") :
    donationSubmit (some uid) fd be =
      match be with
      | some code =>
        .insertError
          ⟨uid, strTrim fd.title, strTrim fd.description, fd.category, strTrim fd.location⟩
          (if code = "23503" then "User profile not found. Please try logging out and back in."
           else if code = "42501" then "Permission denied. Please ensure you\x27re logged in."
           else "Failed to submit donation. Please try again.")
      | none =>
        .success
          ⟨uid, strTrim fd.title, strTrim fd.description, fd.category, strTrim fd.location⟩
          "Donation submitted successfully!" "/donation-success" := by
  rw [donationSubmit, if_neg h1, if_neg h2, if_neg h3, if_neg h4]

/-- C1: when a validated form's insert is rejected, the toast is chosen
solely by the backend error code ("23503" → profile-not-found, "42501" →
permission-denied, otherwise the generic failure message) and the handler
does not navigate; on success it navigates to the static confirmation
route. -/
theorem c1_insert_rejection_classification (uid : String)
    (fh : HelpRequestFormData) (fdn : DonationFormData) (code : String)
    (h1 : strTrim fh.title ≠ "") (h2 : fh.category ≠ "")
    (h3 : strTrim fh.description ≠ "") (h4 : strTrim fh.location ≠ "")
    (h5 : fh.urgency ≠ "")
    (g1 : strTrim fdn.title ≠ "") (g2 : fdn.category ≠ "")
    (g3 : strTrim fdn.description ≠ "") (g4 : strTrim fdn.location ≠ "") :
    (helpRequestSubmit (some uid) fh (some code) =
       .insertError
         ⟨uid, strTrim fh.title, strTrim fh.description, fh.category,
           strTrim fh.location, fh.urgency⟩
         (if code = "23503" then "User profile not found. Please try logging out and back in."
          else if code = "42501" then "Permission denied. Please ensure you\x27re logged in."
          else "Failed to submit help request. Please try again.") ∧
     navTargetOf (helpRequestSubmit (some uid) fh (some code)) = none ∧
     navTargetOf (helpRequestSubmit (some uid) fh none) = some "/request-success") ∧
    (donationSubmit (some uid) fdn (some code) =
       .insertError
         ⟨uid, strTrim fdn.title, strTrim fdn.description, fdn.category, strTrim fdn.location⟩
         (if code = "23503" then "User profile not found. Please try logging out and back in."
          else if code = "42501" then "Permission denied. Please ensure you\x27re logged in."
          else "Failed to submit donation. Please try again.") ∧
     navTargetOf (donationSubmit (some uid) fdn (some code)) = none ∧
     navTargetOf (donationSubmit (some uid) fdn none) = some "/donation-success") := by
  have eh := helpRequestSubmit_valid uid fh
  have ed := donationSubmit_valid uid fdn
  refine ⟨⟨eh (some code) h1 h2 h3 h4 h5, ?_, ?_⟩, ed (some code) g1 g2 g3 g4, ?_, ?_⟩
  · rw [eh (some code) h1 h2 h3 h4 h5]; rfl
  · rw [eh none h1 h2 h3 h4 h5]; rfl
  · rw [ed (some code) g1 g2 g3 g4]; rfl
  · rw [ed none g1 g2 g3 g4]; rfl

/-- C1 witness at concrete validated forms: rejection with an unclassified
code yields the generic message and no navigation; with "23503" and "42501"
the two specific messages; success navigates to the confirmation route. -/
theorem c1_insert_rejection_classification_witness :
    (helpRequestSubmit (some "u1") ⟨"Books", "Education", "Need books", "Pune", "high"⟩
        (some "XX000") =
      .insertError ⟨"u1", "Books", "Need books", "Education", "Pune", "high"⟩
        "Failed to submit help request. Please try again.") ∧
    navTargetOf (helpRequestSubmit (some "u1")
        ⟨"Books", "Education", "Need books", "Pune", "high"⟩ (some "XX000")) = none ∧
    navTargetOf (helpRequestSubmit (some "u1")
        ⟨"Books", "Education", "Need books", "Pune", "high"⟩ none) = some "/request-success" ∧
    (donationSubmit (some "u1") ⟨"Sweaters", "Clothing", "Warm", "Pune"⟩ (some "23503") =
      .insertError ⟨"u1", "Sweaters", "Warm", "Clothing", "Pune"⟩
        "User profile not found. Please try logging out and back in.") ∧
    (donationSubmit (some "u1") ⟨"Sweaters", "Clothing", "Warm", "Pune"⟩ (some "42501") =
      .insertError ⟨"u1", "Sweaters", "Warm", "Clothing", "Pune"⟩
        "Permission denied. Please ensure you\x27re logged in.") := by
  have h := c1_insert_rejection_classification "u1"
    ⟨"Books", "Education", "Need books", "Pune", "high"⟩
    ⟨"Sweaters", "Clothing", "Warm", "Pune"⟩ "XX000"
    (by decide) (by decide) (by decide) (by decide) (by decide)
    (by decide) (by decide) (by decide) (by decide)
  have h23 := c1_insert_rejection_classification "u1"
    ⟨"Books", "Education", "Need books", "Pune", "high"⟩
    ⟨"Sweaters", "Clothing", "Warm", "Pune"⟩ "23503"
    (by decide) (by decide) (by decide) (by decide) (by decide)
    (by decide) (by decide) (by decide) (by decide)
  have h42 := c1_insert_rejection_classification "u1"
    ⟨"Books", "Education", "Need books", "Pune", "high"⟩
    ⟨"Sweaters", "Clothing", "Warm", "Pune"⟩ "42501"
    (by decide) (by decide) (by decide) (by decide) (by decide)
    (by decide) (by decide) (by decide) (by decide)
  refine ⟨by simpa using h.1.1, h.1.2.1, h.1.2.2, by simpa using h23.2.1, by simpa using h42.2.1⟩

/-- A required field of the help-request form is missing: title, description
or location blank after trimming, or category or urgency unselected. -/
def hrRequiredMissing (fd : HelpRequestFormData) : Prop :=
  strTrim fd.title = "" ∨ fd.category = "" ∨ strTrim fd.description = "" ∨
    strTrim fd.location = "" ∨ fd.urgency = ""

/-- A required field of the donation form is missing. -/
def donRequiredMissing (fd : DonationFormData) : Prop :=
  strTrim fd.title = "" ∨ fd.category = "" ∨ strTrim fd.description = "" ∨
    strTrim fd.location = ""

instance (fd : HelpRequestFormData) : Decidable (hrRequiredMissing fd) := by
  unfold hrRequiredMissing; infer_instance

instance (fd : DonationFormData) : Decidable (donRequiredMissing fd) := by
  unfold donRequiredMissing; infer_instance

/-- C4: when any required field is missing the handler shows a validation
toast and issues no insert; when all required fields are present the insert
is issued, with title, description and location trimmed. -/
theorem c4_validation_gates_insert (uid : String) (fh : HelpRequestFormData)
    (fdn : DonationFormData) (be : Option String) :
    ((hrRequiredMissing fh →
       (∃ m, helpRequestSubmit (some uid) fh be = .validationFail m) ∧
       insertOf (helpRequestSubmit (some uid) fh be) = none) ∧
     (¬hrRequiredMissing fh →
       insertOf (helpRequestSubmit (some uid) fh be) =
         some ⟨uid, strTrim fh.title, strTrim fh.description, fh.category,
           strTrim fh.location, fh.urgency⟩)) ∧
    ((donRequiredMissing fdn →
       (∃ m, donationSubmit (some uid) fdn be = .validationFail m) ∧
       insertOf (donationSubmit (some uid) fdn be) = none) ∧
     (¬donRequiredMissing fdn →
       insertOf (donationSubmit (some uid) fdn be) =
         some ⟨uid, strTrim fdn.title, strTrim fdn.description, fdn.category,
           strTrim fdn.location⟩)) := by
  refine ⟨⟨?_, ?_⟩, ?_, ?_⟩
  · intro hmiss
    rw [helpRequestSubmit]
    by_cases h1 : strTrim fh.title = ""
    · rw [if_pos h1]; exact ⟨⟨_, rfl⟩, rfl⟩
    rw [if_neg h1]
    by_cases h2 : fh.category = ""
    · rw [if_pos h2]; exact ⟨⟨_, rfl⟩, rfl⟩
    rw [if_neg h2]
    by_cases h3 : strTrim fh.description = ""
    · rw [if_pos h3]; exact ⟨⟨_, rfl⟩, rfl⟩
    rw [if_neg h3]
    by_cases h4 : strTrim fh.location = ""
    · rw [if_pos h4]; exact ⟨⟨_, rfl⟩, rfl⟩
    rw [if_neg h4]
    by_cases h5 : fh.urgency = ""
    · rw [if_pos h5]; exact ⟨⟨_, rfl⟩, rfl⟩
    exact absurd hmiss (by simp [hrRequiredMissing, h1, h2, h3, h4, h5])
  · intro hcompl
    rw [hrRequiredMissing] at hcompl
    push_neg at hcompl
    obtain ⟨h1, h2, h3, h4, h5⟩ := hcompl
    rw [helpRequestSubmit_valid uid fh be h1 h2 h3 h4 h5]
    cases be <;> rfl
  · intro hmiss
    rw [donationSubmit]
    by_cases h1 : strTrim fdn.title = ""
    · rw [if_pos h1]; exact ⟨⟨_, rfl⟩, rfl⟩
    rw [if_neg h1]
    by_cases h2 : fdn.category = ""
    · rw [if_pos h2]; exact ⟨⟨_, rfl⟩, rfl⟩
    rw [if_neg h2]
    by_cases h3 : strTrim fdn.description = ""
    · rw [if_pos h3]; exact ⟨⟨_, rfl⟩, rfl⟩
    rw [if_neg h3]
    by_cases h4 : strTrim fdn.location = ""
    · rw [if_pos h4]; exact ⟨⟨_, rfl⟩, rfl⟩
    exact absurd hmiss (by simp [donRequiredMissing, h1, h2, h3, h4])
  · intro hcompl
    rw [donRequiredMissing] at hcompl
    push_neg at hcompl
    obtain ⟨h1, h2, h3, h4⟩ := hcompl
    rw [donationSubmit_valid uid fdn be h1 h2 h3 h4]
    cases be <;> rfl

/-- C4 witness at concrete forms: a whitespace-only title blocks the insert
with a validation toast, and a fully filled form inserts the trimmed
values. -/
theorem c4_validation_gates_insert_witness :
    (∃ m, helpRequestSubmit (some "u1") ⟨"   ", "Food", "d", "l", "low"⟩ none =
      .validationFail m) ∧
    insertOf (helpRequestSubmit (some "u1") ⟨"   ", "Food", "d", "l", "low"⟩ none) = none ∧
    insertOf (helpRequestSubmit (some "u1")
        ⟨" Books ", "Education", " desc ", " Pune ", "high"⟩ none) =
      some ⟨"u1", "Books", "desc", "Education", "Pune", "high"⟩ ∧
    (∃ m, donationSubmit (some "u1") ⟨"t", "", "d", "l"⟩ none = .validationFail m) ∧
    insertOf (donationSubmit (some "u1") ⟨"t", "", "d", "l"⟩ none) = none ∧
    insertOf (donationSubmit (some "u1") ⟨" Sweaters ", "Clothing", " warm ", " Pune "⟩ none) =
      some ⟨"u1", "Sweaters", "warm", "Clothing", "Pune"⟩ := by
  have hBad := (c4_validation_gates_insert "u1" ⟨"   ", "Food", "d", "l", "low"⟩
    ⟨"t", "", "d", "l"⟩ none).1.1 (by decide)
  have dBad := (c4_validation_gates_insert "u1" ⟨"   ", "Food", "d", "l", "low"⟩
    ⟨"t", "", "d", "l"⟩ none).2.1 (by decide)
  have hGood := (c4_validation_gates_insert "u1"
    ⟨" Books ", "Education", " desc ", " Pune ", "high"⟩
    ⟨" Sweaters ", "Clothing", " warm ", " Pune "⟩ none).1.2 (by decide)
  have dGood := (c4_validation_gates_insert "u1"
    ⟨" Books ", "Education", " desc ", " Pune ", "high"⟩
    ⟨" Sweaters ", "Clothing", " warm ", " Pune "⟩ none).2.2 (by decide)
  exact ⟨hBad.1, hBad.2, by simpa using hGood, dBad.1, dBad.2, by simpa using dGood⟩

end HelpConnect
